import Mathlib

/-!
# Verification of the LVGL Linux simulator bootstrap (`src/main.c`)

A shallow embedding of `configure_simulator` and `main` from `src/main.c`.

The program parses its command line with `getopt(argc, argv, "b:fmW:H:BVh")`,
fills a global `settings` record (window width/height) from environment
variables / defaults / flags, validates a `-b NAME` backend selection against
the driver registry, and then initializes the selected backend (plus, when the
build has `LV_USE_EVDEV`, the auxiliary `EVDEV` input backend) before entering
the run loop.

The driver-registry functions (`driver_backends_register`,
`driver_backends_is_supported`, `driver_backends_print_supported`,
`driver_backends_init_backend`, `driver_backends_run_loop`) live in a separate
translation unit; here they are oracle parameters (`isSup` for name lookup,
`initRes` for init results) and trace events, so the theorems hold for every
possible registry content.  Side effects are recorded as an event trace.
-/

namespace LvSim

/-- A C string, as its list of characters. -/
abbrev CStr := List Char

/-- Digit-accumulation loop of C `atoi`: consume decimal digits, stop at the
first non-digit. -/
def atoiDigits : CStr → Int → Int
  | [], acc => acc
  | c :: cs, acc =>
    if c.isDigit then atoiDigits cs (acc * 10 + ((c.toNat : Int) - 48)) else acc

/-- C `isspace` for the default locale. -/
def cIsSpace (c : Char) : Bool :=
  c = ' ' || c = '\t' || c = '\n' || c = Char.ofNat 11 || c = Char.ofNat 12 || c = '\r'

/-- Model of C `atoi`: skip leading whitespace, optional sign, then digits;
yields 0 when no digits are present. -/
def atoi (s : CStr) : Int :=
  match s.dropWhile cIsSpace with
  | '-' :: rest => - atoiDigits rest 0
  | '+' :: rest => atoiDigits rest 0
  | cs => atoiDigits cs 0

/-- Does the option character take an argument in the option string
`"b:fmW:H:BVh"`?  Exactly `b`, `W`, `H` are followed by `:`. -/
def optTakesArg (c : Char) : Bool := c = 'b' || c = 'W' || c = 'H'

/-- Is the character one of the option characters of `"b:fmW:H:BVh"`? -/
def optRecognized (c : Char) : Bool :=
  c = 'b' || c = 'f' || c = 'm' || c = 'W' || c = 'H' || c = 'B' || c = 'V' || c = 'h'

/-- One result of a `getopt` call, as consumed by the option loop of
`configure_simulator`.  Because the option string does not start with `:`,
glibc `getopt` reports a missing argument the same way as an unknown option
(return value `'?'`, with `optopt` set); the two are kept separate here but
the loop treats them identically, making `case ':'` in the C switch dead
code. -/
inductive OptResult where
  | optFlag (c : Char)
  | optArg (c : Char) (arg : CStr)
  | missingArg (c : Char)
  | unknown (c : Char)
  deriving DecidableEq, Repr

/-- Parser state between argv elements: either idle, or an option character
seen at the end of a cluster that still needs its argument from the next
argv element. -/
inductive Pending where
  | idle
  | want (c : Char)
  deriving DecidableEq, Repr

/-- Scan one cluster of short options (the characters of an argv element
after the leading `-`).  An argument-taking option consumes the rest of the
cluster as its argument, or, when it ends the cluster, asks for the next
argv element. -/
def clusterScan : List Char → List OptResult × Pending
  | [] => ([], .idle)
  | c :: cs =>
    if optTakesArg c then
      (if cs.isEmpty then ([], .want c) else ([.optArg c cs], .idle))
    else
      ((if optRecognized c then OptResult.optFlag c else OptResult.unknown c)
          :: (clusterScan cs).1,
       (clusterScan cs).2)

/-- The sequence of results `getopt(argc, argv, "b:fmW:H:BVh")` yields over
the argv elements after the program name.  `--` ends option scanning; a
non-option element is skipped (GNU `getopt` permutes it behind the options,
and the program ignores non-option arguments); a pending argument-taking
option consumes the next element verbatim. -/
def getoptGo : Pending → List CStr → List OptResult
  | .want c, [] => [.missingArg c]
  | .want c, a :: rest => .optArg c a :: getoptGo .idle rest
  | .idle, [] => []
  | .idle, a :: rest =>
    match a with
    | '-' :: '-' :: [] => []
    | '-' :: c :: cs =>
      (clusterScan (c :: cs)).1 ++ getoptGo (clusterScan (c :: cs)).2 rest
    | _ => getoptGo .idle rest

/-- All `getopt` results for an argv tail (the elements after `argv[0]`). -/
def getoptAll (args : List CStr) : List OptResult := getoptGo .idle args

/-- The global `settings` record (`simulator_settings_t`). -/
structure Settings where
  window_width : Int
  window_height : Int
  deriving DecidableEq, Repr

/-- Observable actions of the program, in order.  `initBackend` is the
primary-display init call at `main.c:158`; `initEvdev` is the auxiliary
`EVDEV` init call at `main.c:164` (compiled in only under `LV_USE_EVDEV`). -/
inductive Event where
  | registerBackends
  | printUsage
  | printVersion
  | printSupported
  | querySupported (name : CStr)
  | lvInit
  | initBackend (name : Option CStr)
  | initEvdev
  | buildDemo
  | runLoop
  deriving DecidableEq, Repr

/-- The message of a `die` call (every `die` exits with a non-zero status). -/
inductive FatalMsg where
  | noSuchBackend (name : CStr)
  | unknownOption (c : Char)
  | displayInitFailed
  | evdevInitFailed
  deriving DecidableEq, Repr

/-- How `configure_simulator` ends: `exit(EXIT_SUCCESS)`, `die` (non-zero
exit), or a normal return with the final settings and selected backend. -/
inductive ConfigResult where
  | exitOk
  | fatal (m : FatalMsg)
  | done (s : Settings) (sel : Option CStr)
  deriving DecidableEq, Repr

/-- The `while ((opt = getopt(...)) != -1)` loop of `configure_simulator`,
over the sequence of `getopt` results.  `isSup` is the oracle for
`driver_backends_is_supported`; options `f` and `m` match no `case` and fall
through; `'?'` (unknown option or missing argument) prints usage and dies. -/
def configLoop (isSup : CStr → Bool) :
    List OptResult → Settings → Option CStr → List Event × ConfigResult
  | [], s, sel => ([], .done s sel)
  | .optFlag c :: rest, s, sel =>
    if c = 'h' then ([.printUsage], .exitOk)
    else if c = 'V' then ([.printVersion], .exitOk)
    else if c = 'B' then ([.printSupported], .exitOk)
    else configLoop isSup rest s sel
  | .optArg c a :: rest, s, sel =>
    if c = 'b' then
      (if isSup a then
        (.querySupported a :: (configLoop isSup rest s (some a)).1,
         (configLoop isSup rest s (some a)).2)
      else ([.querySupported a], .fatal (.noSuchBackend a)))
    else if c = 'W' then configLoop isSup rest ⟨atoi a, s.window_height⟩ sel
    else if c = 'H' then configLoop isSup rest ⟨s.window_width, atoi a⟩ sel
    else configLoop isSup rest s sel
  | .missingArg c :: _, _, _ => ([.printUsage], .fatal (.unknownOption c))
  | .unknown c :: _, _, _ => ([.printUsage], .fatal (.unknownOption c))

/-- The two environment variables read by `configure_simulator`. -/
structure EnvVars where
  lvWidth : Option CStr
  lvHeight : Option CStr

/-- `settings` right after the defaulting lines
`settings.window_width = atoi(env_w ? env_w : "800")` and
`settings.window_height = atoi(env_h ? env_h : "480")`. -/
def initialSettings (env : EnvVars) : Settings :=
  ⟨atoi (env.lvWidth.getD ['8', '0', '0']),
   atoi (env.lvHeight.getD ['4', '8', '0'])⟩

/-- `configure_simulator(argc, argv)`: set `selected_backend = NULL`, call
`driver_backends_register`, fill the settings defaults, then run the option
loop.  `getopt` starts at `optind = 1`, so only `argv.drop 1` is scanned. -/
def configure_simulator (isSup : CStr → Bool) (env : EnvVars) (argv : List CStr) :
    List Event × ConfigResult :=
  (Event.registerBackends ::
      (configLoop isSup (getoptAll (argv.drop 1)) (initialSettings env) none).1,
   (configLoop isSup (getoptAll (argv.drop 1)) (initialSettings env) none).2)

/-- The name `"EVDEV"` passed to the auxiliary init call. -/
def evdevName : CStr := ['E', 'V', 'D', 'E', 'V']

/-- How the process ends. -/
inductive ProcExit where
  | exitOk
  | fatal (m : FatalMsg)
  | returnedZero
  deriving DecidableEq, Repr

/-- `main`: configure, `lv_init`, init the selected backend (dying on `-1`),
then under `LV_USE_EVDEV` (`useEvdev`) init `"EVDEV"` (dying on `-1`), build
the demo screen (`lv_scroll_test`) and enter the run loop.  `initRes` is the
oracle for `driver_backends_init_backend`. -/
def main (isSup : CStr → Bool) (initRes : Option CStr → Int) (useEvdev : Bool)
    (env : EnvVars) (argv : List CStr) : List Event × ProcExit :=
  match (configure_simulator isSup env argv).2 with
  | .exitOk => ((configure_simulator isSup env argv).1, .exitOk)
  | .fatal m => ((configure_simulator isSup env argv).1, .fatal m)
  | .done _ sel =>
    if initRes sel = -1 then
      ((configure_simulator isSup env argv).1 ++ [.lvInit, .initBackend sel],
       .fatal .displayInitFailed)
    else if useEvdev then
      (if initRes (some evdevName) = -1 then
        ((configure_simulator isSup env argv).1
            ++ [.lvInit, .initBackend sel, .initEvdev],
         .fatal .evdevInitFailed)
      else
        ((configure_simulator isSup env argv).1
            ++ [.lvInit, .initBackend sel, .initEvdev, .buildDemo, .runLoop],
         .returnedZero))
    else
      ((configure_simulator isSup env argv).1
          ++ [.lvInit, .initBackend sel, .buildDemo, .runLoop],
       .returnedZero)

/-- An option result that the loop of `configure_simulator` processes without
terminating the process: not `-h`/`-V`/`-B`, not a parse error, and for `-b`
only a supported name. -/
def ntOpt (isSup : CStr → Bool) : OptResult → Bool
  | .optFlag c => !(c = 'h' || c = 'V' || c = 'B')
  | .optArg c a => if c = 'b' then isSup a else true
  | .missingArg _ => false
  | .unknown _ => false

/-- The argument of the last occurrence of option `c` in a result stream
(`getopt` processes left to right, so a later occurrence overwrites). -/
def lastOptArg (c : Char) : List OptResult → Option CStr
  | [] => none
  | .optArg d a :: rest =>
    (match lastOptArg c rest with
     | some r => some r
     | none => if d = c then some a else none)
  | _ :: rest => lastOptArg c rest

/-- The spec's priority rule for a window dimension, stated in the spec's own
words: the (last) flag value if a flag is present, else the environment value
if set, else the built-in default. -/
def specPriorityValue (flagArg : Option CStr) (envVal : Option CStr)
    (defVal : CStr) : Int :=
  match flagArg with
  | some a => atoi a
  | none => atoi (envVal.getD defVal)

/-! ## Helper lemmas about the option loop -/

theorem configLoop_events {isSup : CStr → Bool} :
    ∀ (opts : List OptResult) (s : Settings) (sel : Option CStr) (e : Event),
      e ∈ (configLoop isSup opts s sel).1 →
      e = .printUsage ∨ e = .printVersion ∨ e = .printSupported ∨
        ∃ n, e = .querySupported n
  | [], s, sel, e, h => by simp [configLoop] at h
  | .optFlag c :: rest, s, sel, e, h => by
    simp only [configLoop] at h
    split_ifs at h
    · simp at h; exact Or.inl h
    · simp at h; exact Or.inr (Or.inl h)
    · simp at h; exact Or.inr (Or.inr (Or.inl h))
    · exact configLoop_events rest s sel e h
  | .optArg c a :: rest, s, sel, e, h => by
    simp only [configLoop] at h
    split_ifs at h
    · simp at h
      rcases h with h | h
      · exact Or.inr (Or.inr (Or.inr ⟨a, h⟩))
      · exact configLoop_events rest s (some a) e h
    · simp at h; exact Or.inr (Or.inr (Or.inr ⟨a, h⟩))
    · exact configLoop_events rest _ sel e h
    · exact configLoop_events rest _ sel e h
    · exact configLoop_events rest s sel e h
  | .missingArg c :: _, _, _, e, h => by
    simp [configLoop] at h; exact Or.inl h
  | .unknown c :: _, _, _, e, h => by
    simp [configLoop] at h; exact Or.inl h

theorem configure_no_main_events (isSup : CStr → Bool) (env : EnvVars)
    (argv : List CStr) :
    (∀ n, Event.initBackend n ∉ (configure_simulator isSup env argv).1) ∧
    Event.initEvdev ∉ (configure_simulator isSup env argv).1 ∧
    Event.lvInit ∉ (configure_simulator isSup env argv).1 ∧
    Event.runLoop ∉ (configure_simulator isSup env argv).1 ∧
    Event.buildDemo ∉ (configure_simulator isSup env argv).1 := by
  have key : ∀ e : Event,
      e ∈ (configure_simulator isSup env argv).1 →
      e = .registerBackends ∨ e = .printUsage ∨ e = .printVersion ∨
        e = .printSupported ∨ ∃ n, e = .querySupported n := by
    intro e he
    simp only [configure_simulator, List.mem_cons] at he
    rcases he with he | he
    · exact Or.inl he
    · exact Or.inr (configLoop_events _ _ _ e he)
  refine ⟨fun n hn => ?_, fun h => ?_, fun h => ?_, fun h => ?_, fun h => ?_⟩
  · rcases key _ hn with h | h | h | h | ⟨m, h⟩ <;> simp at h
  · rcases key _ h with h | h | h | h | ⟨m, h⟩ <;> simp at h
  · rcases key _ h with h | h | h | h | ⟨m, h⟩ <;> simp at h
  · rcases key _ h with h | h | h | h | ⟨m, h⟩ <;> simp at h
  · rcases key _ h with h | h | h | h | ⟨m, h⟩ <;> simp at h

theorem configLoop_nonterm_prefix {isSup : CStr → Bool} :
    ∀ (pre post : List OptResult) (s : Settings) (sel : Option CStr),
      (∀ r ∈ pre, ntOpt isSup r = true) →
      ∃ (s' : Settings) (sel' : Option CStr) (tr0 : List Event),
        configLoop isSup (pre ++ post) s sel
          = (tr0 ++ (configLoop isSup post s' sel').1,
             (configLoop isSup post s' sel').2) ∧
        ∀ e ∈ tr0, ∃ n, e = Event.querySupported n ∧ OptResult.optArg 'b' n ∈ pre
  | [], post, s, sel, _ => ⟨s, sel, [], by simp, by simp⟩
  | r :: pre, post, s, sel, hnt => by
    have hr : ntOpt isSup r = true := hnt r (List.mem_cons_self r pre)
    have hpre : ∀ x ∈ pre, ntOpt isSup x = true :=
      fun x hx => hnt x (List.mem_cons_of_mem r hx)
    cases r with
    | optFlag c =>
      simp only [ntOpt, Bool.not_eq_true', Bool.or_eq_false_iff,
        decide_eq_false_iff_not] at hr
      obtain ⟨⟨h1, h2⟩, h3⟩ := hr
      obtain ⟨s', sel', tr0, heq, hmem⟩ :=
        configLoop_nonterm_prefix pre post s sel hpre
      refine ⟨s', sel', tr0, ?_, ?_⟩
      · simp only [List.cons_append, configLoop, if_neg h1, if_neg h2, if_neg h3]
        exact heq
      · intro e he
        obtain ⟨n, hn, hmem2⟩ := hmem e he
        exact ⟨n, hn, List.mem_cons_of_mem _ hmem2⟩
    | optArg c a =>
      by_cases hb : c = 'b'
      · subst hb
        have hsup : isSup a = true := by simpa [ntOpt] using hr
        obtain ⟨s', sel', tr0, heq, hmem⟩ :=
          configLoop_nonterm_prefix pre post s (some a) hpre
        refine ⟨s', sel', Event.querySupported a :: tr0, ?_, ?_⟩
        · simp [List.cons_append, configLoop, hsup, heq]
        · intro e he
          rcases List.mem_cons.mp he with he | he
          · exact ⟨a, he, List.mem_cons_self _ _⟩
          · obtain ⟨n, hn, hmem2⟩ := hmem e he
            exact ⟨n, hn, List.mem_cons_of_mem _ hmem2⟩
      · by_cases hW : c = 'W'
        · subst hW
          obtain ⟨s', sel', tr0, heq, hmem⟩ :=
            configLoop_nonterm_prefix pre post ⟨atoi a, s.window_height⟩ sel hpre
          refine ⟨s', sel', tr0, ?_, fun e he => ?_⟩
          · simp only [List.cons_append, configLoop, if_neg hb, if_pos rfl]
            exact heq
          · obtain ⟨n, hn, hmem2⟩ := hmem e he
            exact ⟨n, hn, List.mem_cons_of_mem _ hmem2⟩
        · by_cases hH : c = 'H'
          · subst hH
            obtain ⟨s', sel', tr0, heq, hmem⟩ :=
              configLoop_nonterm_prefix pre post ⟨s.window_width, atoi a⟩ sel hpre
            refine ⟨s', sel', tr0, ?_, fun e he => ?_⟩
            · simp only [List.cons_append, configLoop, if_neg hb, if_neg hW,
                if_pos rfl]
              exact heq
            · obtain ⟨n, hn, hmem2⟩ := hmem e he
              exact ⟨n, hn, List.mem_cons_of_mem _ hmem2⟩
          · obtain ⟨s', sel', tr0, heq, hmem⟩ :=
              configLoop_nonterm_prefix pre post s sel hpre
            refine ⟨s', sel', tr0, ?_, fun e he => ?_⟩
            · simp only [List.cons_append, configLoop, if_neg hb, if_neg hW,
                if_neg hH]
              exact heq
            · obtain ⟨n, hn, hmem2⟩ := hmem e he
              exact ⟨n, hn, List.mem_cons_of_mem _ hmem2⟩
    | missingArg c => simp [ntOpt] at hr
    | unknown c => simp [ntOpt] at hr

theorem main_eq_exitOk {isSup : CStr → Bool} {initRes : Option CStr → Int}
    {useEvdev : Bool} {env : EnvVars} {argv : List CStr}
    (h : (configure_simulator isSup env argv).2 = ConfigResult.exitOk) :
    main isSup initRes useEvdev env argv
      = ((configure_simulator isSup env argv).1, .exitOk) := by
  unfold main
  split <;> rename_i heq
  · rfl
  · rw [h] at heq; cases heq
  · rw [h] at heq; cases heq

theorem main_eq_fatal {isSup : CStr → Bool} {initRes : Option CStr → Int}
    {useEvdev : Bool} {env : EnvVars} {argv : List CStr} {m : FatalMsg}
    (h : (configure_simulator isSup env argv).2 = ConfigResult.fatal m) :
    main isSup initRes useEvdev env argv
      = ((configure_simulator isSup env argv).1, .fatal m) := by
  unfold main
  split <;> rename_i heq
  · rw [h] at heq; cases heq
  · rw [h] at heq; injection heq with h1; subst h1; rfl
  · rw [h] at heq; cases heq

theorem main_eq_done {isSup : CStr → Bool} {initRes : Option CStr → Int}
    {useEvdev : Bool} {env : EnvVars} {argv : List CStr} {s : Settings}
    {sel : Option CStr}
    (h : (configure_simulator isSup env argv).2 = ConfigResult.done s sel) :
    main isSup initRes useEvdev env argv =
      (if initRes sel = -1 then
        ((configure_simulator isSup env argv).1 ++ [.lvInit, .initBackend sel],
         .fatal .displayInitFailed)
      else if useEvdev then
        (if initRes (some evdevName) = -1 then
          ((configure_simulator isSup env argv).1
              ++ [.lvInit, .initBackend sel, .initEvdev],
           .fatal .evdevInitFailed)
        else
          ((configure_simulator isSup env argv).1
              ++ [.lvInit, .initBackend sel, .initEvdev, .buildDemo, .runLoop],
           .returnedZero))
      else
        ((configure_simulator isSup env argv).1
            ++ [.lvInit, .initBackend sel, .buildDemo, .runLoop],
         .returnedZero)) := by
  unfold main
  split <;> rename_i heq
  · rw [h] at heq; cases heq
  · rw [h] at heq; cases heq
  · rw [h] at heq; injection heq with h1 h2; subst h2; rfl

/-- The value of one window dimension after the loop has processed `opts`,
starting from default value `d`: the last `-c` argument wins. -/
def dimAfter (c : Char) (opts : List OptResult) (d : Int) : Int :=
  match lastOptArg c opts with
  | some a => atoi a
  | none => d

theorem dimAfter_flag (c x : Char) (rest : List OptResult) (d : Int) :
    dimAfter c (.optFlag x :: rest) d = dimAfter c rest d := rfl

theorem dimAfter_arg_eq (c : Char) (a : CStr) (rest : List OptResult) (d : Int) :
    dimAfter c (.optArg c a :: rest) d = dimAfter c rest (atoi a) := by
  unfold dimAfter
  simp only [lastOptArg]
  cases h : lastOptArg c rest <;> simp

theorem dimAfter_arg_ne {c e : Char} (h : e ≠ c) (a : CStr)
    (rest : List OptResult) (d : Int) :
    dimAfter c (.optArg e a :: rest) d = dimAfter c rest d := by
  unfold dimAfter
  simp only [lastOptArg]
  cases h2 : lastOptArg c rest <;> simp [h]

theorem configLoop_dims {isSup : CStr → Bool} :
    ∀ (opts : List OptResult) (s : Settings) (sel : Option CStr)
      (s' : Settings) (sel' : Option CStr),
      (configLoop isSup opts s sel).2 = .done s' sel' →
      s'.window_width = dimAfter 'W' opts s.window_width ∧
      s'.window_height = dimAfter 'H' opts s.window_height
  | [], s, sel, s', sel', h => by
    have h' : ConfigResult.done s sel = .done s' sel' := h
    injection h' with h1 h2
    subst h1
    exact ⟨rfl, rfl⟩
  | .optFlag c :: rest, s, sel, s', sel', h => by
    simp only [configLoop] at h
    split_ifs at h
    obtain ⟨h1, h2⟩ := configLoop_dims rest s sel s' sel' h
    rw [dimAfter_flag, dimAfter_flag]
    exact ⟨h1, h2⟩
  | .optArg c a :: rest, s, sel, s', sel', h => by
    simp only [configLoop] at h
    split_ifs at h with hb hsup hW hH
    · subst hb
      have h' : (configLoop isSup rest s (some a)).2 = .done s' sel' := h
      obtain ⟨h1, h2⟩ := configLoop_dims rest s (some a) s' sel' h'
      rw [dimAfter_arg_ne (by decide), dimAfter_arg_ne (by decide)]
      exact ⟨h1, h2⟩
    · subst hW
      obtain ⟨h1, h2⟩ :=
        configLoop_dims rest ⟨atoi a, s.window_height⟩ sel s' sel' h
      rw [dimAfter_arg_eq, dimAfter_arg_ne (by decide)]
      exact ⟨h1, h2⟩
    · subst hH
      obtain ⟨h1, h2⟩ :=
        configLoop_dims rest ⟨s.window_width, atoi a⟩ sel s' sel' h
      rw [dimAfter_arg_ne (by decide), dimAfter_arg_eq]
      exact ⟨h1, h2⟩
    · obtain ⟨h1, h2⟩ := configLoop_dims rest s sel s' sel' h
      rw [dimAfter_arg_ne (Ne.symm (by exact fun hc => hW hc.symm)),
        dimAfter_arg_ne (by exact fun hc => hH hc)]
      exact ⟨h1, h2⟩
  | .missingArg c :: rest, s, sel, s', sel', h => by
    simp [configLoop] at h
  | .unknown c :: rest, s, sel, s', sel', h => by
    simp [configLoop] at h

theorem lastOptArg_eq_none {c : Char} :
    ∀ opts : List OptResult,
      (∀ a, OptResult.optArg c a ∉ opts) → lastOptArg c opts = none
  | [], _ => rfl
  | .optArg d a :: rest, h => by
    have hrest : ∀ a', OptResult.optArg c a' ∉ rest :=
      fun a' ha' => h a' (List.mem_cons_of_mem _ ha')
    have hd : d ≠ c := by
      intro hdc; subst hdc; exact h a (List.mem_cons_self _ _)
    simp [lastOptArg, lastOptArg_eq_none rest hrest, hd]
  | .optFlag d :: rest, h => by
    simp only [lastOptArg]
    exact lastOptArg_eq_none rest
      (fun a' ha' => h a' (List.mem_cons_of_mem _ ha'))
  | .missingArg d :: rest, h => by
    simp only [lastOptArg]
    exact lastOptArg_eq_none rest
      (fun a' ha' => h a' (List.mem_cons_of_mem _ ha'))
  | .unknown d :: rest, h => by
    simp only [lastOptArg]
    exact lastOptArg_eq_none rest
      (fun a' ha' => h a' (List.mem_cons_of_mem _ ha'))

theorem lastOptArg_mem {c : Char} :
    ∀ (opts : List OptResult) (a : CStr),
      lastOptArg c opts = some a → OptResult.optArg c a ∈ opts
  | [], a, h => by cases h
  | .optArg d b :: rest, a, h => by
    simp only [lastOptArg] at h
    cases hrest : lastOptArg c rest with
    | some r =>
      rw [hrest] at h
      simp at h
      subst h
      exact List.mem_cons_of_mem _ (lastOptArg_mem rest _ hrest)
    | none =>
      rw [hrest] at h
      by_cases hdc : d = c
      · simp [hdc] at h
        subst hdc; subst h
        exact List.mem_cons_self _ _
      · simp [hdc] at h
  | .optFlag d :: rest, a, h => by
    simp only [lastOptArg] at h
    exact List.mem_cons_of_mem _ (lastOptArg_mem rest a h)
  | .missingArg d :: rest, a, h => by
    simp only [lastOptArg] at h
    exact List.mem_cons_of_mem _ (lastOptArg_mem rest a h)
  | .unknown d :: rest, a, h => by
    simp only [lastOptArg] at h
    exact List.mem_cons_of_mem _ (lastOptArg_mem rest a h)

theorem configure_done_dims {isSup : CStr → Bool} {env : EnvVars}
    {argv : List CStr} {s : Settings} {sel : Option CStr}
    (h : (configure_simulator isSup env argv).2 = ConfigResult.done s sel) :
    s.window_width
        = specPriorityValue (lastOptArg 'W' (getoptAll (argv.drop 1)))
            env.lvWidth ['8', '0', '0'] ∧
    s.window_height
        = specPriorityValue (lastOptArg 'H' (getoptAll (argv.drop 1)))
            env.lvHeight ['4', '8', '0'] := by
  have h' : (configLoop isSup (getoptAll (argv.drop 1))
      (initialSettings env) none).2 = .done s sel := h
  obtain ⟨h1, h2⟩ := configLoop_dims _ _ _ _ _ h'
  constructor
  · rw [h1]
    unfold dimAfter specPriorityValue initialSettings
    cases lastOptArg 'W' (getoptAll (argv.drop 1)) <;> simp
  · rw [h2]
    unfold dimAfter specPriorityValue initialSettings
    cases lastOptArg 'H' (getoptAll (argv.drop 1)) <;> simp

theorem configure_of_stream {isSup : CStr → Bool} {env : EnvVars}
    {argv : List CStr} {pre rest : List OptResult}
    (hs : getoptAll (argv.drop 1) = pre ++ rest)
    (hpre : ∀ r ∈ pre, ntOpt isSup r = true) :
    ∃ (s' : Settings) (sel' : Option CStr) (tr0 : List Event),
      configure_simulator isSup env argv
        = (Event.registerBackends :: (tr0 ++ (configLoop isSup rest s' sel').1),
           (configLoop isSup rest s' sel').2) ∧
      ∀ e ∈ tr0, ∃ n, e = Event.querySupported n ∧
        OptResult.optArg 'b' n ∈ pre := by
  obtain ⟨s', sel', tr0, heq, hmem⟩ :=
    configLoop_nonterm_prefix pre rest (initialSettings env) none hpre
  refine ⟨s', sel', tr0, ?_, hmem⟩
  unfold configure_simulator
  rw [hs, heq]

/-! ## Claim theorems -/

/-- Claim C3: for every command line and environment on which
`configure_simulator` returns normally, each window dimension follows the
priority order of the spec: the last `-W`/`-H` flag value wins; otherwise the
environment variable (`LV_SIM_WINDOW_WIDTH` / `LV_SIM_WINDOW_HEIGHT`) if set;
otherwise the built-in default (`"800"` / `"480"`), each parsed with `atoi`. -/
theorem C3_dimension_priority (isSup : CStr → Bool) (env : EnvVars)
    (argv : List CStr) (s : Settings) (sel : Option CStr)
    (h : (configure_simulator isSup env argv).2 = ConfigResult.done s sel) :
    s.window_width
        = specPriorityValue (lastOptArg 'W' (getoptAll (argv.drop 1)))
            env.lvWidth ['8', '0', '0'] ∧
    s.window_height
        = specPriorityValue (lastOptArg 'H' (getoptAll (argv.drop 1)))
            env.lvHeight ['4', '8', '0'] :=
  configure_done_dims h

/-- Witness for C3: with `LV_SIM_WINDOW_WIDTH=12`, no height variable, and
flags `-W 3 -W 77`, the resulting width is 77 (the last flag wins over the
environment) and the height is the default 480. -/
theorem C3_witness :
    (Settings.mk 77 480).window_width
        = specPriorityValue
            (lastOptArg 'W'
              (getoptAll ([[ 'l' ], ['-', 'W'], ['3'], ['-', 'W'], ['7', '7']].drop 1)))
            (EnvVars.mk (some ['1', '2']) none).lvWidth ['8', '0', '0'] ∧
    (Settings.mk 77 480).window_height
        = specPriorityValue
            (lastOptArg 'H'
              (getoptAll ([[ 'l' ], ['-', 'W'], ['3'], ['-', 'W'], ['7', '7']].drop 1)))
            (EnvVars.mk (some ['1', '2']) none).lvHeight ['4', '8', '0'] :=
  C3_dimension_priority (fun _ => true) (EnvVars.mk (some ['1', '2']) none)
    [[ 'l' ], ['-', 'W'], ['3'], ['-', 'W'], ['7', '7']]
    (Settings.mk 77 480) none (by decide)

/-- Claim C4: with no `-W`/`-H` flags and neither environment variable set,
`configure_simulator` leaves `settings.window_width = 800` and
`settings.window_height = 480`. -/
theorem C4_default_dimensions (isSup : CStr → Bool) (env : EnvVars)
    (argv : List CStr) (s : Settings) (sel : Option CStr)
    (henvW : env.lvWidth = none) (henvH : env.lvHeight = none)
    (hW : ∀ a, OptResult.optArg 'W' a ∉ getoptAll (argv.drop 1))
    (hH : ∀ a, OptResult.optArg 'H' a ∉ getoptAll (argv.drop 1))
    (h : (configure_simulator isSup env argv).2 = ConfigResult.done s sel) :
    s.window_width = 800 ∧ s.window_height = 480 := by
  obtain ⟨h1, h2⟩ := configure_done_dims h
  rw [lastOptArg_eq_none _ hW] at h1
  rw [lastOptArg_eq_none _ hH] at h2
  rw [henvW] at h1
  rw [henvH] at h2
  refine ⟨h1.trans ?_, h2.trans ?_⟩ <;> decide

/-- Witness for C4: no flags, no environment variables, width 800, height
480. -/
theorem C4_witness :
    (Settings.mk 800 480).window_width = 800 ∧
    (Settings.mk 800 480).window_height = 480 :=
  C4_default_dimensions (fun _ => true) (EnvVars.mk none none) [[ 'l' ]]
    (Settings.mk 800 480) none rfl rfl
    (fun a ha => absurd ha (List.not_mem_nil _))
    (fun a ha => absurd ha (List.not_mem_nil _))
    (by decide)

/-- Counterexample to C6 as stated: on the command line `lvglsim -W 0`,
`configure_simulator` returns normally with `settings.window_width = 0`,
which is not positive — the parser performs no range validation. -/
theorem C6_counterexample :
    (configure_simulator (fun _ => true) (EnvVars.mk none none)
        [[ 'l' ], ['-', 'W'], ['0']]).2
      = ConfigResult.done (Settings.mk 0 480) none ∧
    ¬ 0 < (Settings.mk 0 480).window_width := by
  exact ⟨by decide, by decide⟩

/-- Claim C6 (amended): after `configure_simulator` returns, the window
dimensions are positive provided every `-W`/`-H` argument and every set
environment variable parses (via `atoi`) to a positive value; the code itself
performs no validation, so without that proviso the invariant can fail. -/
theorem C6_positive_dimensions (isSup : CStr → Bool) (env : EnvVars)
    (argv : List CStr) (s : Settings) (sel : Option CStr)
    (h : (configure_simulator isSup env argv).2 = ConfigResult.done s sel)
    (hW : ∀ a, OptResult.optArg 'W' a ∈ getoptAll (argv.drop 1) → 0 < atoi a)
    (hH : ∀ a, OptResult.optArg 'H' a ∈ getoptAll (argv.drop 1) → 0 < atoi a)
    (heW : ∀ w, env.lvWidth = some w → 0 < atoi w)
    (heH : ∀ w, env.lvHeight = some w → 0 < atoi w) :
    0 < s.window_width ∧ 0 < s.window_height := by
  obtain ⟨h1, h2⟩ := configure_done_dims h
  constructor
  · rw [h1]
    cases hlast : lastOptArg 'W' (getoptAll (argv.drop 1)) with
    | some a =>
      have := hW a (lastOptArg_mem _ _ hlast)
      simpa [specPriorityValue] using this
    | none =>
      cases henv : env.lvWidth with
      | some w =>
        have := heW w henv
        simpa [specPriorityValue] using this
      | none => simp [specPriorityValue]; decide
  · rw [h2]
    cases hlast : lastOptArg 'H' (getoptAll (argv.drop 1)) with
    | some a =>
      have := hH a (lastOptArg_mem _ _ hlast)
      simpa [specPriorityValue] using this
    | none =>
      cases henv : env.lvHeight with
      | some w =>
        have := heH w henv
        simpa [specPriorityValue] using this
      | none => simp [specPriorityValue]; decide

/-- Witness for C6: `lvglsim -W 5` with no environment variables yields
positive dimensions. -/
theorem C6_witness :
    0 < (Settings.mk 5 480).window_width ∧
    0 < (Settings.mk 5 480).window_height :=
  C6_positive_dimensions (fun _ => true) (EnvVars.mk none none)
    [[ 'l' ], ['-', 'W'], ['5']] (Settings.mk 5 480) none (by decide)
    (by
      intro a ha
      have hst : getoptAll ([[ 'l' ], ['-', 'W'], ['5']].drop 1)
          = [OptResult.optArg 'W' ['5']] := by decide
      rw [hst] at ha
      simp at ha
      subst ha
      decide)
    (by
      intro a ha
      have hst : getoptAll ([[ 'l' ], ['-', 'W'], ['5']].drop 1)
          = [OptResult.optArg 'W' ['5']] := by decide
      rw [hst] at ha
      simp at ha)
    (fun w hw => absurd hw (by simp))
    (fun w hw => absurd hw (by simp))

/-- Claim C8: on every execution path, `driver_backends_register()` is the
very first registry operation: the whole program trace starts with it, and it
is never repeated, so it precedes every `driver_backends_is_supported`,
`driver_backends_print_supported` and `driver_backends_init_backend` call. -/
theorem C8_register_first (isSup : CStr → Bool) (initRes : Option CStr → Int)
    (useEvdev : Bool) (env : EnvVars) (argv : List CStr) :
    ∃ rest, (main isSup initRes useEvdev env argv).1
        = Event.registerBackends :: rest ∧
      Event.registerBackends ∉ rest := by
  have hreg : ∀ e ∈ (configLoop isSup (getoptAll (argv.drop 1))
      (initialSettings env) none).1, e ≠ Event.registerBackends := by
    intro e he
    rcases configLoop_events _ _ _ e he with h | h | h | ⟨n, h⟩ <;>
      subst h <;> simp
  rcases hc : (configure_simulator isSup env argv).2 with _ | m | ⟨s, sel⟩
  · rw [main_eq_exitOk hc]
    exact ⟨_, rfl, fun hmem => hreg _ hmem rfl⟩
  · rw [main_eq_fatal hc]
    exact ⟨_, rfl, fun hmem => hreg _ hmem rfl⟩
  · rw [main_eq_done hc]
    split_ifs with h1 h2 h3
    · refine ⟨_, rfl, fun hmem => ?_⟩
      rcases List.mem_append.mp hmem with hmem | hmem
      · exact hreg _ hmem rfl
      · simp at hmem
    · refine ⟨_, rfl, fun hmem => ?_⟩
      rcases List.mem_append.mp hmem with hmem | hmem
      · exact hreg _ hmem rfl
      · simp at hmem
    · refine ⟨_, rfl, fun hmem => ?_⟩
      rcases List.mem_append.mp hmem with hmem | hmem
      · exact hreg _ hmem rfl
      · simp at hmem
    · refine ⟨_, rfl, fun hmem => ?_⟩
      rcases List.mem_append.mp hmem with hmem | hmem
      · exact hreg _ hmem rfl
      · simp at hmem

/-- Claim C9: `-f` and `-m` are in the `getopt` option string, so the parser
yields them as recognized options, and the option loop matches no `case` for
them: the loop behaves exactly as if they were absent (same trace, same
settings, same selected backend, no exit). -/
theorem C9_fm_noop (isSup : CStr → Bool) (args : List CStr)
    (rest : List OptResult) (s : Settings) (sel : Option CStr) :
    getoptAll (['-', 'f'] :: args) = OptResult.optFlag 'f' :: getoptAll args ∧
    getoptAll (['-', 'm'] :: args) = OptResult.optFlag 'm' :: getoptAll args ∧
    configLoop isSup (.optFlag 'f' :: rest) s sel
      = configLoop isSup rest s sel ∧
    configLoop isSup (.optFlag 'm' :: rest) s sel
      = configLoop isSup rest s sel :=
  ⟨rfl, rfl, rfl, rfl⟩

/-- Counterexample to C1 as stated: the command line `lvglsim -h -b NO`
contains `-b NO` with `NO` unsupported (the registry oracle rejects every
name), yet the process exits with status 0 at `-h` and never prints a
backend diagnostic, because options are processed left to right. -/
theorem C1_counterexample :
    OptResult.optArg 'b' ['N', 'O']
        ∈ getoptAll ([[ 'l' ], ['-', 'h'], ['-', 'b'], ['N', 'O']].drop 1) ∧
    (main (fun _ => false) (fun _ => 0) false (EnvVars.mk none none)
        [[ 'l' ], ['-', 'h'], ['-', 'b'], ['N', 'O']]).2 = ProcExit.exitOk := by
  exact ⟨by decide, by decide⟩

/-- Claim C1 (amended): whenever the option parser actually reaches a
`-b NAME` option (no earlier option terminates the process), an unsupported
NAME makes `configure_simulator` die — a non-zero exit with the
`no such backend` diagnostic — before any backend init operation, while a
supported NAME is recorded as the selected backend and parsing continues on
the remaining options. -/
theorem C1_backend_validation (isSup : CStr → Bool) (initRes : Option CStr → Int)
    (useEvdev : Bool) (env : EnvVars) (argv : List CStr)
    (pre post : List OptResult) (name : CStr)
    (hs : getoptAll (argv.drop 1) = pre ++ OptResult.optArg 'b' name :: post)
    (hpre : ∀ r ∈ pre, ntOpt isSup r = true) :
    (isSup name = false →
      (main isSup initRes useEvdev env argv).2
          = ProcExit.fatal (FatalMsg.noSuchBackend name) ∧
      (∀ n, Event.initBackend n ∉ (main isSup initRes useEvdev env argv).1) ∧
      Event.initEvdev ∉ (main isSup initRes useEvdev env argv).1 ∧
      Event.runLoop ∉ (main isSup initRes useEvdev env argv).1) ∧
    (isSup name = true →
      ∃ (s' : Settings) (tr0 : List Event),
        configure_simulator isSup env argv
          = (Event.registerBackends ::
              (tr0 ++ Event.querySupported name ::
                (configLoop isSup post s' (some name)).1),
             (configLoop isSup post s' (some name)).2)) := by
  obtain ⟨s', sel', tr0, hcfe, hmem⟩ := configure_of_stream hs hpre
  constructor
  · intro hn
    have hX : configLoop isSup (OptResult.optArg 'b' name :: post) s' sel'
        = ([Event.querySupported name],
           ConfigResult.fatal (FatalMsg.noSuchBackend name)) := by
      simp [configLoop, hn]
    rw [hX] at hcfe
    have hc2 : (configure_simulator isSup env argv).2
        = ConfigResult.fatal (FatalMsg.noSuchBackend name) := by rw [hcfe]
    obtain ⟨hIB, hIE, hLV, hRL, hBD⟩ := configure_no_main_events isSup env argv
    rw [main_eq_fatal hc2]
    exact ⟨rfl, hIB, hIE, hRL⟩
  · intro hy
    have hX : configLoop isSup (OptResult.optArg 'b' name :: post) s' sel'
        = (Event.querySupported name :: (configLoop isSup post s' (some name)).1,
           (configLoop isSup post s' (some name)).2) := by
      simp [configLoop, hy]
    rw [hX] at hcfe
    exact ⟨s', tr0, hcfe⟩

/-- Witness for C1 (amended): `lvglsim -b X` with an empty registry dies with
the `no such backend` diagnostic and never reaches an init call. -/
theorem C1_witness :
    (main (fun _ => false) (fun _ => 0) false (EnvVars.mk none none)
        [[ 'l' ], ['-', 'b'], ['X']]).2
      = ProcExit.fatal (FatalMsg.noSuchBackend ['X']) ∧
    (∀ n, Event.initBackend n
        ∉ (main (fun _ => false) (fun _ => 0) false (EnvVars.mk none none)
            [[ 'l' ], ['-', 'b'], ['X']]).1) ∧
    Event.initEvdev ∉ (main (fun _ => false) (fun _ => 0) false
        (EnvVars.mk none none) [[ 'l' ], ['-', 'b'], ['X']]).1 ∧
    Event.runLoop ∉ (main (fun _ => false) (fun _ => 0) false
        (EnvVars.mk none none) [[ 'l' ], ['-', 'b'], ['X']]).1 :=
  (C1_backend_validation (fun _ => false) (fun _ => 0) false
    (EnvVars.mk none none) [[ 'l' ], ['-', 'b'], ['X']] [] []
    ['X'] (by decide) (fun r hr => absurd hr (List.not_mem_nil _))).1 rfl

/-- Counterexample to C5 as stated: `-f` is not in the claim's recognized set
`{-b, -W, -H, -B, -V, -h}`, yet `lvglsim -f` does not terminate with a usage
message — it proceeds all the way to the run loop (here with an init oracle
that succeeds), because `f` is in the `getopt` option string `"b:fmW:H:BVh"`. -/
theorem C5_counterexample :
    (main (fun _ => true) (fun _ => 0) false (EnvVars.mk none none)
        [[ 'l' ], ['-', 'f']]).2 = ProcExit.returnedZero ∧
    Event.runLoop ∈ (main (fun _ => true) (fun _ => 0) false
        (EnvVars.mk none none) [[ 'l' ], ['-', 'f']]).1 := by
  exact ⟨by decide, by decide⟩

/-- Claim C5 (amended): the set of recognized flags is
`{-b, -f, -m, -W, -H, -B, -V, -h}` (with `-f`/`-m` as no-ops); whenever the
parser reaches a flag outside this set, or a flag whose required argument is
missing, `configure_simulator` prints usage and dies with a non-zero exit,
and neither toolkit initialization (`lv_init`), nor any backend init, nor
the run loop is ever reached. -/
theorem C5_unrecognized_flag (isSup : CStr → Bool) (initRes : Option CStr → Int)
    (useEvdev : Bool) (env : EnvVars) (argv : List CStr)
    (pre post : List OptResult) (r : OptResult) (c : Char)
    (hr : r = OptResult.unknown c ∨ r = OptResult.missingArg c)
    (hs : getoptAll (argv.drop 1) = pre ++ r :: post)
    (hpre : ∀ x ∈ pre, ntOpt isSup x = true) :
    (main isSup initRes useEvdev env argv).2
        = ProcExit.fatal (FatalMsg.unknownOption c) ∧
    Event.printUsage ∈ (main isSup initRes useEvdev env argv).1 ∧
    Event.lvInit ∉ (main isSup initRes useEvdev env argv).1 ∧
    (∀ n, Event.initBackend n ∉ (main isSup initRes useEvdev env argv).1) ∧
    Event.initEvdev ∉ (main isSup initRes useEvdev env argv).1 ∧
    Event.runLoop ∉ (main isSup initRes useEvdev env argv).1 := by
  obtain ⟨s', sel', tr0, hcfe, hmem⟩ := configure_of_stream hs hpre
  have hX : configLoop isSup (r :: post) s' sel'
      = ([Event.printUsage], ConfigResult.fatal (FatalMsg.unknownOption c)) := by
    rcases hr with hr | hr <;> subst hr <;> rfl
  rw [hX] at hcfe
  have hc2 : (configure_simulator isSup env argv).2
      = ConfigResult.fatal (FatalMsg.unknownOption c) := by rw [hcfe]
  obtain ⟨hIB, hIE, hLV, hRL, hBD⟩ := configure_no_main_events isSup env argv
  rw [main_eq_fatal hc2]
  refine ⟨rfl, ?_, hLV, hIB, hIE, hRL⟩
  rw [hcfe]
  simp

/-- Witness for C5 (amended): `lvglsim -x` dies with the unknown-option
diagnostic, prints usage, and reaches neither `lv_init` nor any init nor the
run loop. -/
theorem C5_witness :
    (main (fun _ => true) (fun _ => 0) true (EnvVars.mk none none)
        [[ 'l' ], ['-', 'x']]).2 = ProcExit.fatal (FatalMsg.unknownOption 'x') ∧
    Event.printUsage ∈ (main (fun _ => true) (fun _ => 0) true
        (EnvVars.mk none none) [[ 'l' ], ['-', 'x']]).1 ∧
    Event.lvInit ∉ (main (fun _ => true) (fun _ => 0) true
        (EnvVars.mk none none) [[ 'l' ], ['-', 'x']]).1 ∧
    (∀ n, Event.initBackend n ∉ (main (fun _ => true) (fun _ => 0) true
        (EnvVars.mk none none) [[ 'l' ], ['-', 'x']]).1) ∧
    Event.initEvdev ∉ (main (fun _ => true) (fun _ => 0) true
        (EnvVars.mk none none) [[ 'l' ], ['-', 'x']]).1 ∧
    Event.runLoop ∉ (main (fun _ => true) (fun _ => 0) true
        (EnvVars.mk none none) [[ 'l' ], ['-', 'x']]).1 :=
  C5_unrecognized_flag (fun _ => true) (fun _ => 0) true (EnvVars.mk none none)
    [[ 'l' ], ['-', 'x']] [] [] (OptResult.unknown 'x') 'x' (Or.inl rfl)
    (by decide) (fun x hx => absurd hx (List.not_mem_nil _))

/-- Claim C7: whenever the parser reaches a `-B` flag (no earlier option has
terminated the process), the process prints the registered backend names and
exits with status 0, without ever invoking any backend init operation or the
run loop. -/
theorem C7_list_backends (isSup : CStr → Bool) (initRes : Option CStr → Int)
    (useEvdev : Bool) (env : EnvVars) (argv : List CStr)
    (pre post : List OptResult)
    (hs : getoptAll (argv.drop 1) = pre ++ OptResult.optFlag 'B' :: post)
    (hpre : ∀ r ∈ pre, ntOpt isSup r = true) :
    (main isSup initRes useEvdev env argv).2 = ProcExit.exitOk ∧
    Event.printSupported ∈ (main isSup initRes useEvdev env argv).1 ∧
    (∀ n, Event.initBackend n ∉ (main isSup initRes useEvdev env argv).1) ∧
    Event.initEvdev ∉ (main isSup initRes useEvdev env argv).1 ∧
    Event.runLoop ∉ (main isSup initRes useEvdev env argv).1 := by
  obtain ⟨s', sel', tr0, hcfe, hmem⟩ := configure_of_stream hs hpre
  have hX : configLoop isSup (OptResult.optFlag 'B' :: post) s' sel'
      = ([Event.printSupported], ConfigResult.exitOk) := rfl
  rw [hX] at hcfe
  have hc2 : (configure_simulator isSup env argv).2 = ConfigResult.exitOk := by
    rw [hcfe]
  obtain ⟨hIB, hIE, hLV, hRL, hBD⟩ := configure_no_main_events isSup env argv
  rw [main_eq_exitOk hc2]
  refine ⟨rfl, ?_, hIB, hIE, hRL⟩
  rw [hcfe]
  simp

/-- Witness for C7: `lvglsim -B` exits 0, prints the backend list, and never
reaches an init call or the run loop. -/
theorem C7_witness :
    (main (fun _ => true) (fun _ => 0) true (EnvVars.mk none none)
        [[ 'l' ], ['-', 'B']]).2 = ProcExit.exitOk ∧
    Event.printSupported ∈ (main (fun _ => true) (fun _ => 0) true
        (EnvVars.mk none none) [[ 'l' ], ['-', 'B']]).1 ∧
    (∀ n, Event.initBackend n ∉ (main (fun _ => true) (fun _ => 0) true
        (EnvVars.mk none none) [[ 'l' ], ['-', 'B']]).1) ∧
    Event.initEvdev ∉ (main (fun _ => true) (fun _ => 0) true
        (EnvVars.mk none none) [[ 'l' ], ['-', 'B']]).1 ∧
    Event.runLoop ∉ (main (fun _ => true) (fun _ => 0) true
        (EnvVars.mk none none) [[ 'l' ], ['-', 'B']]).1 :=
  C7_list_backends (fun _ => true) (fun _ => 0) true (EnvVars.mk none none)
    [[ 'l' ], ['-', 'B']] [] [] (by decide)
    (fun r hr => absurd hr (List.not_mem_nil _))

/-- Claim C10: options are processed strictly left to right and `-h`, `-V`,
`-B` exit the process at their position: if the first process-terminating
option of the stream is one of them, the process exits with status 0, and a
`-b NAME` that appears only later is never validated against the registry
(no `is_supported` query for NAME happens), even if NAME is unsupported. -/
theorem C10_early_exit (isSup : CStr → Bool) (initRes : Option CStr → Int)
    (useEvdev : Bool) (env : EnvVars) (argv : List CStr)
    (pre post : List OptResult) (t : Char) (name : CStr)
    (ht : t = 'h' ∨ t = 'V' ∨ t = 'B')
    (hs : getoptAll (argv.drop 1) = pre ++ OptResult.optFlag t :: post)
    (hpre : ∀ r ∈ pre, ntOpt isSup r = true)
    (hbpost : OptResult.optArg 'b' name ∈ post)
    (hbpre : OptResult.optArg 'b' name ∉ pre) :
    (main isSup initRes useEvdev env argv).2 = ProcExit.exitOk ∧
    Event.querySupported name ∉ (main isSup initRes useEvdev env argv).1 := by
  obtain ⟨s', sel', tr0, hcfe, hmem⟩ := configure_of_stream hs hpre
  have hX : ∃ pe : Event, pe ≠ Event.querySupported name ∧
      configLoop isSup (OptResult.optFlag t :: post) s' sel'
        = ([pe], ConfigResult.exitOk) := by
    rcases ht with ht | ht | ht <;> subst ht
    · exact ⟨Event.printUsage, by simp, rfl⟩
    · exact ⟨Event.printVersion, by simp, rfl⟩
    · exact ⟨Event.printSupported, by simp, rfl⟩
  obtain ⟨pe, hpe, hX⟩ := hX
  rw [hX] at hcfe
  have hc2 : (configure_simulator isSup env argv).2 = ConfigResult.exitOk := by
    rw [hcfe]
  rw [main_eq_exitOk hc2]
  refine ⟨rfl, fun hq => ?_⟩
  rw [hcfe] at hq
  simp only [List.mem_cons, List.mem_append, List.mem_singleton] at hq
  rcases hq with hq | hq | hq | hq
  · cases hq
  · obtain ⟨n, hn, hpmem⟩ := hmem _ hq
    injection hn with hn'
    subst hn'
    exact hbpre hpmem
  · exact hpe hq.symm
  · simp at hq

/-- Witness for C10: in `lvglsim -h -b NO` the `-h` exits the process with
status 0 and the unsupported name `NO` is never checked against the
registry. -/
theorem C10_witness :
    (main (fun _ => false) (fun _ => 0) true (EnvVars.mk none none)
        [[ 'l' ], ['-', 'h'], ['-', 'b'], ['N', 'O']]).2 = ProcExit.exitOk ∧
    Event.querySupported ['N', 'O'] ∉ (main (fun _ => false) (fun _ => 0) true
        (EnvVars.mk none none) [[ 'l' ], ['-', 'h'], ['-', 'b'], ['N', 'O']]).1 :=
  C10_early_exit (fun _ => false) (fun _ => 0) true (EnvVars.mk none none)
    [[ 'l' ], ['-', 'h'], ['-', 'b'], ['N', 'O']] []
    [OptResult.optArg 'b' ['N', 'O']] 'h' ['N', 'O'] (Or.inl rfl) (by decide)
    (fun r hr => absurd hr (List.not_mem_nil _)) (by decide)
    (List.not_mem_nil _)

/-- Claim C2: the auxiliary `EVDEV` init happens only in builds with
`LV_USE_EVDEV`, and only after — and only if — the primary backend init
succeeded (returned something other than `-1`); failure of either init call
makes the process die, and the run loop is entered only when every attempted
init succeeded. -/
theorem C2_evdev_after_primary (isSup : CStr → Bool)
    (initRes : Option CStr → Int) (useEvdev : Bool) (env : EnvVars)
    (argv : List CStr) :
    (Event.initEvdev ∈ (main isSup initRes useEvdev env argv).1 →
      useEvdev = true ∧
      ∃ (sel : Option CStr) (t1 t3 : List Event),
        (main isSup initRes useEvdev env argv).1
          = t1 ++ [Event.initBackend sel, Event.initEvdev] ++ t3 ∧
        initRes sel ≠ -1) ∧
    (∀ sel, Event.initBackend sel ∈ (main isSup initRes useEvdev env argv).1 →
      initRes sel = -1 →
      (main isSup initRes useEvdev env argv).2
          = ProcExit.fatal FatalMsg.displayInitFailed ∧
      Event.initEvdev ∉ (main isSup initRes useEvdev env argv).1 ∧
      Event.runLoop ∉ (main isSup initRes useEvdev env argv).1) ∧
    (Event.initEvdev ∈ (main isSup initRes useEvdev env argv).1 →
      initRes (some evdevName) = -1 →
      (main isSup initRes useEvdev env argv).2
          = ProcExit.fatal FatalMsg.evdevInitFailed ∧
      Event.runLoop ∉ (main isSup initRes useEvdev env argv).1) ∧
    (Event.runLoop ∈ (main isSup initRes useEvdev env argv).1 →
      (main isSup initRes useEvdev env argv).2 = ProcExit.returnedZero) := by
  obtain ⟨hIB, hIE, hLV, hRL, hBD⟩ := configure_no_main_events isSup env argv
  rcases hc : (configure_simulator isSup env argv).2 with _ | m | ⟨s, sel0⟩
  · rw [main_eq_exitOk hc]
    exact ⟨fun hm => absurd hm hIE, fun n hm => absurd hm (hIB n),
      fun hm => absurd hm hIE, fun hm => absurd hm hRL⟩
  · rw [main_eq_fatal hc]
    exact ⟨fun hm => absurd hm hIE, fun n hm => absurd hm (hIB n),
      fun hm => absurd hm hIE, fun hm => absurd hm hRL⟩
  · rw [main_eq_done hc]
    split_ifs with h1 h2 h3
    · -- primary init failed: trace ends after the primary init call
      refine ⟨fun hm => ?_, fun n hm hfail => ⟨rfl, ?_, ?_⟩, fun hm _ => ?_, fun hm => ?_⟩
      · simp [List.mem_append, hIE] at hm
      · simp [List.mem_append, hIE]
      · simp [List.mem_append, hRL]
      · simp [List.mem_append, hIE] at hm
      · simp [List.mem_append, hRL] at hm
    · -- primary ok, evdev build, evdev init failed
      refine ⟨fun _ => ⟨h2, sel0, (configure_simulator isSup env argv).1
          ++ [Event.lvInit], [], by simp, h1⟩,
        fun n hm hfail => ?_, fun _ _ => ⟨rfl, by simp [List.mem_append, hRL]⟩,
        fun hm => ?_⟩
      · exfalso
        simp [List.mem_append, fun m => hIB m] at hm
        subst hm
        exact h1 hfail
      · simp [List.mem_append, hRL] at hm
    · -- primary ok, evdev build, evdev init ok: run loop reached
      refine ⟨fun _ => ⟨h2, sel0, (configure_simulator isSup env argv).1
          ++ [Event.lvInit], [Event.buildDemo, Event.runLoop], by simp, h1⟩,
        fun n hm hfail => ?_, fun _ hfail => absurd hfail h3, fun _ => rfl⟩
      · exfalso
        simp [List.mem_append, fun m => hIB m] at hm
        subst hm
        exact h1 hfail
    · -- primary ok, build without evdev: run loop reached, no evdev init
      refine ⟨fun hm => ?_, fun n hm hfail => ?_, fun hm _ => ?_, fun _ => rfl⟩
      · simp [List.mem_append, hIE] at hm
      · exfalso
        simp [List.mem_append, fun m => hIB m] at hm
        subst hm
        exact h1 hfail
      · simp [List.mem_append, hIE] at hm

/-- Witness for C2: in an evdev build where every init succeeds, the trace of
`lvglsim` (no arguments) contains the `EVDEV` init, placed directly after the
successful primary init. -/
theorem C2_witness :
    true = true ∧
    ∃ (sel : Option CStr) (t1 t3 : List Event),
      (main (fun _ => true) (fun _ => 0) true (EnvVars.mk none none)
          [[ 'l' ]]).1
        = t1 ++ [Event.initBackend sel, Event.initEvdev] ++ t3 ∧
      (0 : Int) ≠ -1 :=
  (C2_evdev_after_primary (fun _ => true) (fun _ => 0) true
    (EnvVars.mk none none) [[ 'l' ]]).1 (by decide)

end LvSim
